import Mathlib

/-!
Shallow embedding of the real-time detection pipeline of
emergentai/yolov12-onnxruntime-web.

The page component (`src/unnamed/part_001`) holds the scheduler: React state
(`detections`, `stats`, `error`, `isProcessing`, `isPaused`), the recursive
async `detectLoop`, and the lifecycle handlers `startProcessing`,
`stopProcessing`, `togglePause`, `handleExport`, `handleReset`,
`handleClearVideo`.  The `VideoProcessor` / `ObjectDetector` modules
(`@/lib/video-processor`, `@/lib/object-detector`) are not part of the
source tree given here; their operations (`updateDetections`,
`getCurrentFrame`, `stopProcessing`, `reset`, `exportDetections`,
`exportStats`) and the `CoordinateMapper` are modelled from the spec where a
definition below says so.

Machine numbers (`number` in TypeScript) are embedded as `ℚ`; counts as `Nat`.
The single-threaded cooperative scheduling of the browser is embedded as a
small-step event system: a `tick` fires the scheduled `requestAnimationFrame`
callback (if any), a `resolveOk`/`resolveErr` event is the continuation of the
awaited `detectObjects` promise, and the lifecycle handlers are further events.
-/

set_option linter.unusedVariables false

namespace YoloPipeline

/-- `Detection` from `src/src/lib/types.ts`: a model-space rectangle with a
confidence and a class label. -/
structure Detection where
  x : ℚ
  y : ℚ
  width : ℚ
  height : ℚ
  confidence : ℚ
  cls : String
deriving DecidableEq

/-- `DetectionStats` from `src/src/lib/types.ts`; `classCounts` (a
`Record<string, number>`) is embedded as an association list. -/
structure DetectionStats where
  totalDetections : Nat
  averageConfidence : ℚ
  lastDetectionTime : ℚ
  classCounts : List (String × Nat)
deriving DecidableEq

/-- The zeroed stats value used by the page component for its initial state and
by `handleReset` / `handleClearVideo` (`src/unnamed/part_001` lines 23-28,
89-94, 242-247). -/
def zeroStats : DetectionStats :=
  { totalDetections := 0
    averageConfidence := 0
    lastDetectionTime := 0
    classCounts := [] }

/-- Increment the cumulative count of one class label, creating the key on
first occurrence (spec §4.2: "increments `classCounts` per detection", keys
created on first occurrence). -/
def incrementClass : List (String × Nat) → String → List (String × Nat)
  | [], c => [(c, 1)]
  | (k, n) :: rest, c =>
      if k = c then (k, n + 1) :: rest else (k, n) :: incrementClass rest c

/-- Sum of the confidence values of one batch. -/
def batchConfidenceSum (batch : List Detection) : ℚ :=
  (batch.map (fun d => d.confidence)).sum

/-- Modelled from the spec: `DetectionAggregator.ingest` (the aggregator lives
in the `video-processor` module, which is not under `src/`).  Spec §4.2:
updates `totalDetections`, recomputes `averageConfidence` as the running mean
`newAvg = oldAvg + (sum(batchConfidences) - oldAvg*batchSize) / newTotal`
guarding against division by zero when `newTotal == 0`, increments
`classCounts` per detection, and updates `lastDetectionTime` only if the batch
is non-empty (`now` is the ingestion timestamp). -/
def ingest (now : ℚ) (st : DetectionStats) (batch : List Detection) : DetectionStats :=
  let newTotal : Nat := st.totalDetections + batch.length
  let s : ℚ := batchConfidenceSum batch
  { totalDetections := newTotal
    averageConfidence :=
      if newTotal = 0 then st.averageConfidence
      else st.averageConfidence +
        (s - st.averageConfidence * (batch.length : ℚ)) / (newTotal : ℚ)
    lastDetectionTime := if batch.length = 0 then st.lastDetectionTime else now
    classCounts := batch.foldl (fun cc d => incrementClass cc d.cls) st.classCounts }

/-- Folding a sequence of (timestamp, batch) pairs through `ingest`. -/
def ingestAll (st : DetectionStats) (bs : List (ℚ × List Detection)) : DetectionStats :=
  bs.foldl (fun acc p => ingest p.1 acc p.2) st

/-- Every individual confidence value of a sequence of timed batches, in
ingestion order. -/
def allConfidences (bs : List (ℚ × List Detection)) : List ℚ :=
  (bs.map (fun p => p.2.map (fun d => d.confidence))).flatten

/-- The state of the page component together with the (single) active
processing session: the published React state, the session's processor state
(aggregator, export history, stopped flag — the processor internals are
modelled from the spec where noted on the event functions), and the
scheduler bookkeeping (whether a `detectLoop` callback is queued, how many
inference calls are in flight, how many submissions ever happened, how many
detection errors were logged). -/
structure AppState where
  detections : List Detection
  stats : DetectionStats
  error : Option String
  isProcessing : Bool
  isPaused : Bool
  agg : DetectionStats
  history : List (List Detection)
  stopped : Bool
  scheduled : Bool
  inFlight : Nat
  submissions : Nat
  errorsLogged : Nat
deriving DecidableEq

/-- The component's initial state (`src/unnamed/part_001` lines 19-30): no
video, no processor yet, zeroed published stats. -/
def idleState : AppState :=
  { detections := []
    stats := zeroStats
    error := none
    isProcessing := false
    isPaused := false
    agg := zeroStats
    history := []
    stopped := false
    scheduled := false
    inFlight := 0
    submissions := 0
    errorsLogged := 0 }

/-- `startProcessing` (`src/unnamed/part_001` lines 157-205): sets
`isProcessing := true`, `isPaused := false`, clears the error, constructs a
fresh `VideoProcessor` (fresh aggregator, empty export history, stopped flag
false — processor internals modelled from the spec) that replaces
`processorRef.current`, and kicks off `detectLoop` (embedded as a queued
callback).  Note the function performs no state check: it never consults
`isProcessing`, and it does not touch the published `detections`/`stats` nor
any still-pending inference. -/
def startProcessing (s : AppState) : AppState :=
  { s with
    isProcessing := true
    isPaused := false
    error := none
    agg := zeroStats
    history := []
    stopped := false
    scheduled := true }

/-- One display-refresh tick firing the queued `detectLoop` callback, if any
(`src/unnamed/part_001` lines 180-199).  `frameAvail` is the environment's
choice of whether `processorRef.current.getCurrentFrame()` returns a frame
(`getCurrentFrame` is modelled from the spec's `FrameSource.currentFrame`:
non-blocking, latest frame or nothing).  With a frame, `detectObjects` is
awaited: the callback is consumed and one inference becomes in-flight — the
rest of the loop body runs only at resolution.  With no frame, the loop body
falls through to the continuation check and re-queues itself unless the
processor is stopped. -/
def tick (frameAvail : Bool) (s : AppState) : AppState :=
  if s.scheduled then
    if frameAvail then
      { s with
        scheduled := false
        inFlight := s.inFlight + 1
        submissions := s.submissions + 1 }
    else
      { s with scheduled := !s.stopped }
  else s

/-- Modelled from the spec: `VideoProcessor.updateDetections` (the
`video-processor` module is not under `src/`).  Spec §4.1 step 5: on inference
completion, if the state has since become Stopped the result is discarded;
otherwise the batch is published (replacing the prior one, via the
`onDetections` callback which is `setDetections` — `src/unnamed/part_001`
lines 166-169), fed to the aggregator, the updated stats are published via the
`onStats` callback, and the batch is recorded for export. -/
def updateDetections (now : ℚ) (dets : List Detection) (s : AppState) : AppState :=
  if s.stopped then s
  else
    let agg := ingest now s.agg dets
    { s with
      detections := dets
      agg := agg
      stats := agg
      history := s.history ++ [dets] }

/-- Successful resolution of the awaited `detectObjects` call
(`src/unnamed/part_001` lines 186-187 and 193-196): the in-flight count drops,
`processorRef.current.updateDetections(newDetections)` runs, and then the
continuation check re-queues `detectLoop` unless the processor is stopped. -/
def resolveOk (now : ℚ) (dets : List Detection) (s : AppState) : AppState :=
  let s1 := updateDetections now dets { s with inFlight := s.inFlight - 1 }
  { s1 with scheduled := s1.scheduled || !s1.stopped }

/-- Failed resolution of the awaited `detectObjects` call
(`src/unnamed/part_001` lines 188-190 and 193-196): the error is caught and
logged (`console.error`), nothing is published, and the continuation check
re-queues `detectLoop` unless the processor is stopped. -/
def resolveErr (s : AppState) : AppState :=
  let s1 := { s with inFlight := s.inFlight - 1, errorsLogged := s.errorsLogged + 1 }
  { s1 with scheduled := s1.scheduled || !s1.stopped }

/-- `stopProcessing` (`src/unnamed/part_001` lines 207-214): clears the two
React flags and sets the processor's stopped flag
(`processor.stopProcessing()`, modelled from the spec's Stopped transition).
Nothing else is touched: no published state, no aggregator, no pending
callback or in-flight call. -/
def stopProcessing (s : AppState) : AppState :=
  { s with isProcessing := false, isPaused := false, stopped := true }

/-- `togglePause` (`src/unnamed/part_001` lines 216-218): flips the `isPaused`
React flag and does nothing else — in particular it tells the processor and
the detect loop nothing. -/
def togglePause (s : AppState) : AppState :=
  { s with isPaused := !s.isPaused }

/-- `handleReset` (`src/unnamed/part_001` lines 240-252): clears the published
detections and stats and calls `processor.reset()` (modelled from the spec:
clears the aggregator). -/
def handleReset (s : AppState) : AppState :=
  { s with detections := [], stats := zeroStats, agg := zeroStats }

/-- `handleClearVideo` (`src/unnamed/part_001` lines 86-103): clearing the
video source also clears the published detections and stats and resets the
processor (the file/src bookkeeping has no observable effect on the pipeline
state and is elided). -/
def handleClearVideo (s : AppState) : AppState :=
  { s with detections := [], stats := zeroStats, agg := zeroStats }

/-- The structured document produced by `handleExport`
(`src/unnamed/part_001` lines 225-229): the JSON object
`{ detections, stats, timestamp }`. -/
structure ExportDoc where
  detections : List (List Detection)
  stats : DetectionStats
  timestamp : String
deriving DecidableEq

/-- The outcome of `handleExport`: the serialized document and the download
filename. -/
structure ExportFile where
  doc : ExportDoc
  filename : String
deriving DecidableEq

/-- Modelled from the spec: the ISO-8601 rendering of the export moment
(`new Date().toISOString()` — a host-library calendar rendering, embedded
abstractly as a string determined by the millisecond epoch). -/
def isoTimestamp (ms : Nat) : String :=
  "ISO-8601:" ++ toString ms

/-- `handleExport` (`src/unnamed/part_001` lines 221-238): builds the document
from `processorRef.current.exportDetections()` (modelled from the spec: all
published batches this session, embedded as the `history` field maintained by
`updateDetections`), `processorRef.current.exportStats()` (modelled from the
spec: the final aggregator stats) and an ISO-8601 timestamp, and names the
file `object-detections-${Date.now()}.json` (`ms` is the millisecond
epoch). -/
def handleExport (ms : Nat) (s : AppState) : ExportFile :=
  { doc :=
      { detections := s.history
        stats := s.agg
        timestamp := isoTimestamp ms }
    filename := "object-detections-" ++ toString ms ++ ".json" }

/-- One event of a running session: a display tick, a resolution of the
in-flight inference (success or failure — either requires an in-flight call),
or one of the lifecycle handlers that act on the current session.
`startProcessing` is deliberately not a session event: it replaces the
session. -/
inductive Step : AppState → AppState → Prop
  | tickS (f : Bool) (s : AppState) : Step s (tick f s)
  | okS (now : ℚ) (dets : List Detection) (s : AppState) (h : 0 < s.inFlight) :
      Step s (resolveOk now dets s)
  | errS (s : AppState) (h : 0 < s.inFlight) : Step s (resolveErr s)
  | stopS (s : AppState) : Step s (stopProcessing s)
  | pauseS (s : AppState) : Step s (togglePause s)
  | resetS (s : AppState) : Step s (handleReset s)
  | clearS (s : AppState) : Step s (handleClearVideo s)

/-- The states a single session can reach: `startProcessing` from the idle
component state, then any interleaving of session events. -/
def Reachable (s : AppState) : Prop :=
  Relation.ReflTransGen Step (startProcessing idleState) s

/-- The scheduler invariant of one session: at most one inference call is in
flight, and while one is in flight no `detectLoop` callback is queued (the
loop's continuation is suspended on the awaited promise, not scheduled). -/
def SchedInv (s : AppState) : Prop :=
  s.inFlight ≤ 1 ∧ (s.scheduled = true → s.inFlight = 0)

/-- A rectangle in display coordinates, as drawn by the renderer. -/
structure MappedRect where
  x : ℚ
  y : ℚ
  width : ℚ
  height : ℚ
deriving DecidableEq

/-- Modelled from the spec: the `CoordinateMapper` (it lives in the
`detection-overlay` renderer module, which is not under `src/`).  Spec §4.3:
independent linear scaling of each axis, `scaleX = displayWidth / modelWidth`,
`scaleY = displayHeight / modelHeight`, no aspect-ratio correction. -/
def mapDetection (modelW modelH displayW displayH : ℚ) (d : Detection) : MappedRect :=
  let scaleX := displayW / modelW
  let scaleY := displayH / modelH
  { x := d.x * scaleX
    y := d.y * scaleY
    width := d.width * scaleX
    height := d.height * scaleY }

/-- A sample detection used in concrete witnesses (confidence 0.9, class
"car", following the spec §8 end-to-end example). -/
def sampleCar : Detection :=
  { x := 0, y := 0, width := 1, height := 1, confidence := 9/10, cls := "car" }

/-- A second sample detection (confidence 0.5, class "car"). -/
def sampleCar2 : Detection :=
  { x := 1, y := 1, width := 2, height := 2, confidence := 1/2, cls := "car" }

/-- A sample detection (confidence 0.7, class "person"). -/
def samplePerson : Detection :=
  { x := 2, y := 3, width := 4, height := 5, confidence := 7/10, cls := "person" }

/-- A session just started, with its first frame submitted and in flight. -/
def inFlightState : AppState := tick true (startProcessing idleState)

/-- A session stopped while its first inference call is still in flight. -/
def stoppedInFlightState : AppState := stopProcessing inFlightState

/-- A stopped session after the abandoned call has resolved. -/
def stoppedResolvedState : AppState := resolveOk 3 [sampleCar] stoppedInFlightState

/-- `startProcessing` called again while the call submitted before `stop()` is
still unresolved: the fresh processor replaces `processorRef.current`, its
stopped flag is false, and the stale call is still in flight. -/
def restartStaleState : AppState := startProcessing stoppedInFlightState

/-- The stale call resolving after the restart: the completion handler calls
`updateDetections` on whatever processor is current — the new, non-stopped
one — with no generation or token check anywhere in the code. -/
def staleResolvedState : AppState := resolveOk 7 [samplePerson] restartStaleState

/-- A session whose in-flight call was resolved and published while running. -/
def publishedState : AppState := resolveOk 5 [sampleCar] inFlightState

/-- A running session with one published batch and a second call in flight. -/
def secondInFlightState : AppState := tick true publishedState

/-- A session that was paused (via `togglePause`) while its first inference
call was in flight. -/
def pausedInFlightState : AppState := togglePause inFlightState

/-- The paused session after the in-flight call resolved and published. -/
def pausedResolvedState : AppState := resolveOk 5 [sampleCar] pausedInFlightState

/-- The paused session at the next display tick after the resolution. -/
def pausedNextTickState : AppState := tick true pausedResolvedState

theorem schedInv_init : SchedInv (startProcessing idleState) := by
  constructor <;> simp [startProcessing, idleState]

theorem schedInv_step {s s' : AppState} (hs : Step s s') (h : SchedInv s) : SchedInv s' := by
  obtain ⟨h1, h2⟩ := h
  cases hs with
  | tickS f s =>
      by_cases hsch : s.scheduled
      · have h0 : s.inFlight = 0 := h2 (by simpa using hsch)
        cases f with
        | false =>
            constructor <;> simp [tick, hsch, h0]
        | true =>
            constructor <;> simp [tick, hsch, h0]
      · have hs : s.scheduled = false := by
          cases hb : s.scheduled
          · rfl
          · exact absurd (by simp [hb]) hsch
        simpa [tick, hs] using ⟨h1, h2⟩
  | okS now dets s h =>
      have hf : s.inFlight = 1 := Nat.le_antisymm h1 h
      constructor <;>
        simp [resolveOk, updateDetections, hf] <;> split <;> simp
  | errS s h =>
      have hf : s.inFlight = 1 := Nat.le_antisymm h1 h
      constructor <;> simp [resolveErr, hf]
  | stopS s => exact ⟨h1, h2⟩
  | pauseS s => exact ⟨h1, h2⟩
  | resetS s => exact ⟨h1, h2⟩
  | clearS s => exact ⟨h1, h2⟩

theorem schedInv_reachable {s : AppState} (h : Reachable s) : SchedInv s := by
  induction h with
  | refl => exact schedInv_init
  | tail hab hbc ih => exact schedInv_step hbc ih

/-- Once the processor's stopped flag is set, no session event clears it. -/
theorem step_preserves_stopped {s s' : AppState} (hs : Step s s')
    (h : s.stopped = true) : s'.stopped = true := by
  cases hs with
  | tickS f s => simp [tick]; split <;> [skip; exact h]; split <;> simp [h]
  | okS now dets s hf => simp [resolveOk, updateDetections, h]
  | errS s hf => simp [resolveErr, h]
  | stopS s => simp [stopProcessing]
  | pauseS s => simp [togglePause, h]
  | resetS s => simp [handleReset, h]
  | clearS s => simp [handleClearVideo, h]

theorem ingest_total (now : ℚ) (st : DetectionStats) (b : List Detection) :
    (ingest now st b).totalDetections = st.totalDetections + b.length := rfl

theorem ingest_mean_step (now : ℚ) (st : DetectionStats) (b : List Detection) (S : ℚ)
    (h1 : st.averageConfidence * (st.totalDetections : ℚ) = S)
    (h0 : st.totalDetections = 0 → st.averageConfidence = 0) :
    (ingest now st b).averageConfidence * ((ingest now st b).totalDetections : ℚ)
        = S + batchConfidenceSum b
      ∧ ((ingest now st b).totalDetections = 0 → (ingest now st b).averageConfidence = 0) := by
  by_cases hz : st.totalDetections + b.length = 0
  · have hn : st.totalDetections = 0 := by omega
    have hb : b.length = 0 := by omega
    have hbnil : b = [] := List.length_eq_zero.mp hb
    have ha : st.averageConfidence = 0 := h0 hn
    have hS : S = 0 := by rw [← h1, ha]; ring
    constructor
    · simp [ingest, hz, hbnil, batchConfidenceSum, ha, hS]
    · intro _
      simp [ingest, hz, ha]
  · have hq : ((st.totalDetections : ℚ) + (b.length : ℚ)) ≠ 0 := by
      intro hcon
      apply hz
      exact_mod_cast hcon
    constructor
    · simp only [ingest, ingest_total, hz, if_false, Nat.cast_add]
      rw [add_mul, div_mul_cancel₀ _ hq]
      linear_combination h1
    · intro hcon
      exact absurd (by simpa [ingest] using hcon) hz

theorem ingestAll_mean (bs : List (ℚ × List Detection)) :
    ∀ (st : DetectionStats) (S : ℚ),
      st.averageConfidence * (st.totalDetections : ℚ) = S →
      (st.totalDetections = 0 → st.averageConfidence = 0) →
      (ingestAll st bs).averageConfidence * ((ingestAll st bs).totalDetections : ℚ)
          = S + (allConfidences bs).sum
        ∧ ((ingestAll st bs).totalDetections = 0 →
            (ingestAll st bs).averageConfidence = 0) := by
  induction bs with
  | nil =>
      intro st S h1 h0
      refine ⟨?_, ?_⟩
      · simpa [ingestAll, allConfidences] using h1
      · simpa [ingestAll] using h0
  | cons p rest ih =>
      intro st S h1 h0
      have hstep := ingest_mean_step p.1 st p.2 S h1 h0
      have hrest := ih (ingest p.1 st p.2) (S + batchConfidenceSum p.2) hstep.1 hstep.2
      refine ⟨?_, hrest.2⟩
      rw [show ingestAll st (p :: rest) = ingestAll (ingest p.1 st p.2) rest from rfl,
        hrest.1]
      simp [allConfidences, batchConfidenceSum]
      ring

theorem ingestAll_total (bs : List (ℚ × List Detection)) :
    ∀ st : DetectionStats,
      (ingestAll st bs).totalDetections
        = st.totalDetections + (allConfidences bs).length := by
  induction bs with
  | nil => intro st; simp [ingestAll, allConfidences]
  | cons p rest ih =>
      intro st
      rw [show ingestAll st (p :: rest) = ingestAll (ingest p.1 st p.2) rest from rfl,
        ih, ingest_total]
      simp [allConfidences]
      omega

/-- C1: At-most-one-in-flight.  In every state a session can reach, at most
one inference submission is outstanding, and while one is unresolved a display
tick changes nothing at all — in particular it pulls no frame and performs no
new submission, so across any number of ticks exactly that one submission
stays outstanding. -/
theorem claim_C1_at_most_one_in_flight (s : AppState) (h : Reachable s) :
    s.inFlight ≤ 1
      ∧ (0 < s.inFlight →
          s.inFlight = 1 ∧ tick true s = s ∧ tick false s = s) := by
  obtain ⟨h1, h2⟩ := schedInv_reachable h
  refine ⟨h1, fun hpos => ⟨Nat.le_antisymm h1 hpos, ?_, ?_⟩⟩ <;>
  · have hs : s.scheduled = false := by
      cases hb : s.scheduled
      · rfl
      · exact absurd (h2 hb) (by omega)
    simp [tick, hs]

theorem claim_C1_witness :
    Reachable inFlightState
      ∧ (inFlightState.inFlight ≤ 1
        ∧ (0 < inFlightState.inFlight →
            inFlightState.inFlight = 1
              ∧ tick true inFlightState = inFlightState
              ∧ tick false inFlightState = inFlightState)) :=
  have hr : Reachable inFlightState :=
    Relation.ReflTransGen.single (Step.tickS true (startProcessing idleState))
  ⟨hr, claim_C1_at_most_one_in_flight inFlightState hr⟩

/-- C2: the claim says a pending call's resolution after `stop()` never
causes a stats mutation or a batch publication.  While the processor stays
stopped the result is indeed discarded (`stoppedResolvedState` below), but the
completion handler calls `updateDetections` on whatever processor is current
with no generation or token check, and `startProcessing` installs a fresh,
non-stopped processor without cancelling the stale call.  Evaluating the code
at the failing input — `stop()` during flight, then `start()` before the stale
call resolves — the stale result is published and ingested into the new
session's stats, violating "never published". -/
theorem claim_C2_stale_result_published_after_restart :
    stoppedInFlightState.stopped = true
      ∧ 0 < stoppedInFlightState.inFlight
      ∧ stoppedResolvedState.detections = []
      ∧ stoppedResolvedState.stats.totalDetections = 0
      ∧ restartStaleState.stopped = false
      ∧ 0 < restartStaleState.inFlight
      ∧ staleResolvedState.detections = [samplePerson]
      ∧ staleResolvedState.stats.totalDetections = 1
      ∧ staleResolvedState.history = [[samplePerson]] := by
  refine ⟨by decide, by decide, ?_, by decide, by decide, by decide, ?_, by decide,
    ?_⟩ <;>
  norm_num [staleResolvedState, restartStaleState, stoppedResolvedState,
    stoppedInFlightState, inFlightState, stopProcessing, startProcessing, tick,
    resolveOk, updateDetections, ingest, idleState, batchConfidenceSum,
    incrementClass, zeroStats, sampleCar, samplePerson]

/-- C3: the claim says pausing during an in-flight call lets the call complete
and publish (true) but suppresses further submissions until `resume()`
(false in the code: `detectLoop`'s continuation check reads only
`isProcessingStopped()`, never the paused flag, contradicting its own comment
"Continue loop if processing and not paused").  This theorem evaluates the
code at the failing input: pause during flight, the call resolves and
publishes, and the very next display tick pulls a frame and submits again
while still paused, with no `resume()` in between. -/
theorem claim_C3_pause_does_not_suppress_submissions :
    pausedInFlightState.isPaused = true
      ∧ pausedInFlightState.submissions = 1
      ∧ pausedResolvedState.detections = [sampleCar]
      ∧ pausedResolvedState.isPaused = true
      ∧ pausedNextTickState.submissions = 2
      ∧ pausedNextTickState.isPaused = true := by
  refine ⟨by decide, by decide, ?_, by decide, by decide, by decide⟩
  norm_num [pausedResolvedState, pausedInFlightState, inFlightState, togglePause,
    tick, resolveOk, updateDetections, ingest, startProcessing, idleState,
    batchConfidenceSum, incrementClass, zeroStats, sampleCar]

/-- C4 counterexample: the claim says `start()` while Running fails with
`InvalidState`, is reported, and changes no state.  In the code
`startProcessing` performs no state check at all: at a Running state with one
ingested detection it reports nothing (it even clears the error field) and it
does change state (the fresh processor's aggregator count drops from 1 to
0). -/
theorem claim_C4_counterexample :
    publishedState.isProcessing = true
      ∧ (startProcessing publishedState).error = none
      ∧ (startProcessing publishedState).agg.totalDetections
          ≠ publishedState.agg.totalDetections := by
  decide

/-- C4 (amended): calling `start()` while Running or Paused does not fail and
reports no error — it clears the error field, installs a fresh processor
(aggregator zeroed, export history emptied, stopped flag false), sets Running
(`isProcessing := true`, `isPaused := false`) and queues a new detect loop,
while leaving the published detections, the published stats and any pending
in-flight call untouched. -/
theorem claim_C4_start_while_running_restarts (s : AppState)
    (h : s.isProcessing = true) :
    (startProcessing s).error = none
      ∧ (startProcessing s).isProcessing = true
      ∧ (startProcessing s).isPaused = false
      ∧ (startProcessing s).agg = zeroStats
      ∧ (startProcessing s).history = []
      ∧ (startProcessing s).stopped = false
      ∧ (startProcessing s).scheduled = true
      ∧ (startProcessing s).detections = s.detections
      ∧ (startProcessing s).stats = s.stats
      ∧ (startProcessing s).inFlight = s.inFlight :=
  ⟨rfl, rfl, rfl, rfl, rfl, rfl, rfl, rfl, rfl, rfl⟩

theorem claim_C4_witness :
    publishedState.isProcessing = true
      ∧ ((startProcessing publishedState).error = none
        ∧ (startProcessing publishedState).isProcessing = true
        ∧ (startProcessing publishedState).isPaused = false
        ∧ (startProcessing publishedState).agg = zeroStats
        ∧ (startProcessing publishedState).history = []
        ∧ (startProcessing publishedState).stopped = false
        ∧ (startProcessing publishedState).scheduled = true
        ∧ (startProcessing publishedState).detections = publishedState.detections
        ∧ (startProcessing publishedState).stats = publishedState.stats
        ∧ (startProcessing publishedState).inFlight = publishedState.inFlight) :=
  ⟨by decide, claim_C4_start_while_running_restarts publishedState (by decide)⟩

/-- C5 counterexample: the claim says an inference error is treated as an
empty batch published for that cycle.  At a running state whose previously
published batch is `[sampleCar]` and whose second call is in flight, a failing
resolution leaves the published detections at `[sampleCar]` — not the empty
batch the claim requires. -/
theorem claim_C5_counterexample :
    0 < secondInFlightState.inFlight
      ∧ (resolveErr secondInFlightState).detections = [sampleCar]
      ∧ (resolveErr secondInFlightState).detections ≠ [] := by
  have h2 : (resolveErr secondInFlightState).detections = [sampleCar] := by
    norm_num [secondInFlightState, publishedState, inFlightState, resolveErr,
      resolveOk, updateDetections, ingest, tick, startProcessing, idleState,
      batchConfidenceSum, incrementClass, zeroStats, sampleCar]
  exact ⟨by decide, h2, by rw [h2]; simp⟩

/-- C5 (amended): a cycle whose inference call raises an error is caught at
the scheduler boundary and logged as a non-fatal event, publishes nothing for
that cycle — the previously published batch, the published stats, the
aggregator and the export history all remain unchanged — and the processing
loop continues (the next tick is queued whenever the processor is not
stopped). -/
theorem claim_C5_error_is_logged_and_skipped (s : AppState)
    (hrun : s.stopped = false) :
    (resolveErr s).errorsLogged = s.errorsLogged + 1
      ∧ (resolveErr s).detections = s.detections
      ∧ (resolveErr s).stats = s.stats
      ∧ (resolveErr s).agg = s.agg
      ∧ (resolveErr s).history = s.history
      ∧ (resolveErr s).scheduled = true := by
  refine ⟨rfl, rfl, rfl, rfl, rfl, ?_⟩
  simp [resolveErr, hrun]

theorem claim_C5_witness :
    secondInFlightState.stopped = false
      ∧ ((resolveErr secondInFlightState).errorsLogged
            = secondInFlightState.errorsLogged + 1
        ∧ (resolveErr secondInFlightState).detections
            = secondInFlightState.detections
        ∧ (resolveErr secondInFlightState).stats = secondInFlightState.stats
        ∧ (resolveErr secondInFlightState).agg = secondInFlightState.agg
        ∧ (resolveErr secondInFlightState).history = secondInFlightState.history
        ∧ (resolveErr secondInFlightState).scheduled = true) :=
  ⟨by decide, claim_C5_error_is_logged_and_skipped secondInFlightState (by decide)⟩

/-- C6: every publication replaces the previously published batch instead of
appending to it — after a resolution publishes while the processor is not
stopped, the renderer's detection list is exactly the detections of the latest
batch, whatever was published before. -/
theorem claim_C6_batch_replaces_previous (s : AppState) (now : ℚ)
    (dets : List Detection) (hrun : s.stopped = false) :
    (resolveOk now dets s).detections = dets := by
  simp [resolveOk, updateDetections, hrun]

theorem claim_C6_witness :
    secondInFlightState.stopped = false
      ∧ (resolveOk 9 [samplePerson, sampleCar2] secondInFlightState).detections
          = [samplePerson, sampleCar2] :=
  ⟨by decide,
    claim_C6_batch_replaces_previous secondInFlightState 9
      [samplePerson, sampleCar2] (by decide)⟩

/-- C7: the export operation produces a single structured document holding
exactly the published batches of the session (the history that successful
publications — and nothing else — append to), the final stats and an ISO-8601
timestamp, and the filename carries the millisecond epoch suffix
(`object-detections-${Date.now()}.json`). -/
theorem claim_C7_export_document (s : AppState) (ms : Nat) (now : ℚ)
    (dets : List Detection) (f : Bool) :
    handleExport ms s
        = ⟨⟨s.history, s.agg, isoTimestamp ms⟩,
            "object-detections-" ++ toString ms ++ ".json"⟩
      ∧ (s.stopped = false →
          (resolveOk now dets s).history = s.history ++ [dets])
      ∧ (s.stopped = true → (resolveOk now dets s).history = s.history)
      ∧ (resolveErr s).history = s.history
      ∧ (tick f s).history = s.history
      ∧ (stopProcessing s).history = s.history
      ∧ (togglePause s).history = s.history
      ∧ (handleReset s).history = s.history := by
  refine ⟨rfl, ?_, ?_, rfl, ?_, rfl, rfl, rfl⟩
  · intro h; simp [resolveOk, updateDetections, h]
  · intro h; simp [resolveOk, updateDetections, h]
  · unfold tick
    split
    · split <;> rfl
    · rfl

theorem claim_C7_witness :
    handleExport 123 secondInFlightState
        = ⟨⟨secondInFlightState.history, secondInFlightState.agg, isoTimestamp 123⟩,
            "object-detections-" ++ toString 123 ++ ".json"⟩
      ∧ (secondInFlightState.stopped = false →
          (resolveOk 11 [samplePerson] secondInFlightState).history
            = secondInFlightState.history ++ [[samplePerson]])
      ∧ (secondInFlightState.stopped = true →
          (resolveOk 11 [samplePerson] secondInFlightState).history
            = secondInFlightState.history)
      ∧ (resolveErr secondInFlightState).history = secondInFlightState.history
      ∧ (tick true secondInFlightState).history = secondInFlightState.history
      ∧ (stopProcessing secondInFlightState).history = secondInFlightState.history
      ∧ (togglePause secondInFlightState).history = secondInFlightState.history
      ∧ (handleReset secondInFlightState).history = secondInFlightState.history :=
  claim_C7_export_document secondInFlightState 123 11 [samplePerson] true

/-- C8: for every non-empty sequence of timed batches ingested into a freshly
reset aggregator, `averageConfidence` is exactly the arithmetic mean of every
individual confidence value ingested — the guarded running-mean update of
`ingest` maintains it exactly over `ℚ`. -/
theorem claim_C8_average_confidence_is_exact_mean
    (bs : List (ℚ × List Detection)) (hbs : bs ≠ []) :
    (ingestAll zeroStats bs).averageConfidence
      = (allConfidences bs).sum / ((allConfidences bs).length : ℚ) := by
  have h := ingestAll_mean bs zeroStats 0 (by simp [zeroStats]) (fun _ => rfl)
  have ht := ingestAll_total bs zeroStats
  by_cases hc : (allConfidences bs).length = 0
  · have h0 : (ingestAll zeroStats bs).totalDetections = 0 := by
      rw [ht]; simp [zeroStats, hc]
    have havg := h.2 h0
    have hsum : (allConfidences bs).sum = 0 := by
      have hmul := h.1
      rw [h0] at hmul
      simpa [havg] using hmul.symm
    simp [havg, hsum]
  · have hcq : ((allConfidences bs).length : ℚ) ≠ 0 := Nat.cast_ne_zero.mpr hc
    have hcast : ((ingestAll zeroStats bs).totalDetections : ℚ)
        = ((allConfidences bs).length : ℚ) := by
      rw [ht]; simp [zeroStats]
    rw [eq_div_iff hcq, ← hcast]
    simpa using h.1

theorem claim_C8_witness :
    ([(1, [sampleCar]), (2, [sampleCar2, samplePerson])]
        ≠ ([] : List (ℚ × List Detection)))
      ∧ (ingestAll zeroStats
            [(1, [sampleCar]), (2, [sampleCar2, samplePerson])]).averageConfidence
          = (allConfidences
                [(1, [sampleCar]), (2, [sampleCar2, samplePerson])]).sum
            / ((allConfidences
                [(1, [sampleCar]), (2, [sampleCar2, samplePerson])]).length : ℚ) :=
  ⟨by simp,
    claim_C8_average_confidence_is_exact_mean
      [(1, [sampleCar]), (2, [sampleCar2, samplePerson])] (by simp)⟩

/-- The spec's end-to-end scenario evaluated on the embedded aggregator:
ingesting `[{0.9, car}]` then `[{0.5, car}, {0.7, person}]` yields three
detections, average confidence 0.7 and class counts `{car: 2, person: 1}`. -/
theorem endToEndExample :
    ingestAll zeroStats [(1, [sampleCar]), (2, [sampleCar2, samplePerson])]
      = { totalDetections := 3
          averageConfidence := 7/10
          lastDetectionTime := 2
          classCounts := [("car", 2), ("person", 1)] } := by
  norm_num [ingestAll, ingest, zeroStats, batchConfidenceSum, incrementClass,
    sampleCar, sampleCar2, samplePerson]
  decide

/-- C9: coordinate mapping round-trip — for every positive display resolution
and positive model input size, a detection occupying the model's full extent
`(0, 0, modelW, modelH)` maps under the independent per-axis linear scaling
exactly to `(0, 0, displayW, displayH)`. -/
theorem claim_C9_full_extent_round_trip (modelW modelH displayW displayH c : ℚ)
    (label : String) (hmW : 0 < modelW) (hmH : 0 < modelH)
    (hdW : 0 < displayW) (hdH : 0 < displayH) :
    mapDetection modelW modelH displayW displayH
        { x := 0, y := 0, width := modelW, height := modelH,
          confidence := c, cls := label }
      = { x := 0, y := 0, width := displayW, height := displayH } := by
  have h1 : modelW * (displayW / modelW) = displayW := by
    rw [mul_comm]; exact div_mul_cancel₀ displayW (ne_of_gt hmW)
  have h2 : modelH * (displayH / modelH) = displayH := by
    rw [mul_comm]; exact div_mul_cancel₀ displayH (ne_of_gt hmH)
  simp [mapDetection, h1, h2]

theorem claim_C9_witness :
    (0:ℚ) < 640 ∧ (0:ℚ) < 640 ∧ (0:ℚ) < 1920 ∧ (0:ℚ) < 1080
      ∧ mapDetection 640 640 1920 1080
          { x := 0, y := 0, width := 640, height := 640,
            confidence := 1/2, cls := "car" }
        = { x := 0, y := 0, width := 1920, height := 1080 } :=
  ⟨by norm_num, by norm_num, by norm_num, by norm_num,
    claim_C9_full_extent_round_trip 640 640 1920 1080 (1/2) "car"
      (by norm_num) (by norm_num) (by norm_num) (by norm_num)⟩

/-- C10: `stopProcessing` leaves the last published batch and the last
published stats (and the aggregator, export history, error field and the
scheduler bookkeeping) untouched — it mutates only the `isProcessing` and
`isPaused` flags and the processor's stopped flag — while `handleReset` and
`handleClearVideo` are the operations that clear the published detections and
stats. -/
theorem claim_C10_stop_preserves_published_state (s : AppState) :
    (stopProcessing s).detections = s.detections
      ∧ (stopProcessing s).stats = s.stats
      ∧ (stopProcessing s).agg = s.agg
      ∧ (stopProcessing s).history = s.history
      ∧ (stopProcessing s).error = s.error
      ∧ (stopProcessing s).scheduled = s.scheduled
      ∧ (stopProcessing s).inFlight = s.inFlight
      ∧ (stopProcessing s).submissions = s.submissions
      ∧ (stopProcessing s).errorsLogged = s.errorsLogged
      ∧ (stopProcessing s).isProcessing = false
      ∧ (stopProcessing s).isPaused = false
      ∧ (stopProcessing s).stopped = true
      ∧ (handleReset s).detections = []
      ∧ (handleReset s).stats = zeroStats
      ∧ (handleClearVideo s).detections = []
      ∧ (handleClearVideo s).stats = zeroStats :=
  ⟨rfl, rfl, rfl, rfl, rfl, rfl, rfl, rfl, rfl, rfl, rfl, rfl, rfl, rfl, rfl,
    rfl⟩

end YoloPipeline
